import Mathlib

/-
  Verification of the TikTok Ally OAuth2 driver (src/driver.ts).

  The driver extends a generic OAuth2 engine; the code in this repository
  supplies endpoint URLs, parameter-name overrides, the token-exchange and
  redirect customization hooks, an access-denied predicate and a user-info
  normalizer.  We embed those hooks as pure functions over explicit models
  of the request builders and of the provider's JSON payloads.  JavaScript
  optionality (a value that may be `undefined`) is modelled with `Option`,
  and the JavaScript falsiness of the empty string and of `undefined` is
  embedded explicitly where the source relies on it (`||`, `!error`).
-/

namespace TikTokDriver

/-- Association list with string keys, modelling the parameter / header /
field maps of the request builders.  `setParam` overwrites every earlier
binding of the key, as the builders of the OAuth2 engine do. -/
def setParam {α : Type} : List (String × α) → String → α → List (String × α)
  | [], k, v => [(k, v)]
  | p :: ps, k, v => if p.1 = k then setParam ps k v else p :: setParam ps k v

/-- Remove every binding of a key, modelling `request.clearParam`. -/
def clearParam {α : Type} : List (String × α) → String → List (String × α)
  | [], _ => []
  | p :: ps, k => if p.1 = k then clearParam ps k else p :: clearParam ps k

/-- Look a key up, returning the first bound value. -/
def getParam {α : Type} : List (String × α) → String → Option α
  | [], _ => none
  | p :: ps, k => if p.1 = k then some p.2 else getParam ps k

theorem getParam_setParam_self {α : Type} (ps : List (String × α)) (k : String) (v : α) :
    getParam (setParam ps k v) k = some v := by
  induction ps with
  | nil => simp [setParam, getParam]
  | cons p ps ih =>
    by_cases h : p.1 = k
    · simp [setParam, h, ih]
    · simp [setParam, getParam, h, ih]

theorem getParam_setParam_ne {α : Type} {j k : String} (h : j ≠ k)
    (ps : List (String × α)) (v : α) :
    getParam (setParam ps k v) j = getParam ps j := by
  induction ps with
  | nil => simp [setParam, getParam, Ne.symm h]
  | cons p ps ih =>
    by_cases hp : p.1 = k
    · have hj : p.1 ≠ j := by rw [hp]; exact Ne.symm h
      simp [setParam, getParam, hp, hj, Ne.symm h, ih]
    · by_cases hq : p.1 = j
      · simp [setParam, getParam, hp, hq, h]
      · simp [setParam, getParam, hp, hq, ih]

theorem getParam_clearParam_self {α : Type} (ps : List (String × α)) (k : String) :
    getParam (clearParam ps k) k = none := by
  induction ps with
  | nil => simp [clearParam, getParam]
  | cons p ps ih =>
    by_cases h : p.1 = k
    · simp [clearParam, h, ih]
    · simp [clearParam, getParam, h, ih]

theorem getParam_clearParam_ne {α : Type} {j k : String} (h : j ≠ k)
    (ps : List (String × α)) :
    getParam (clearParam ps k) j = getParam ps j := by
  induction ps with
  | nil => simp [clearParam]
  | cons p ps ih =>
    by_cases hp : p.1 = k
    · have hj : p.1 ≠ j := by rw [hp]; exact Ne.symm h
      simp [clearParam, getParam, hp, hj, Ne.symm h, ih]
    · by_cases hq : p.1 = j
      · simp [clearParam, getParam, hp, hq, h]
      · simp [clearParam, getParam, hp, hq, ih]

/-- Access token returned by tiktok: `{ token: string, type: 'bearer' }`. -/
structure TikTokAccessToken where
  token : String
  type : String
deriving DecidableEq, Repr

/-- The driver configuration (`TikTokConfig` in the source).  Optional
fields are `Option`s; a missing field is `none`. -/
structure TikTokConfig where
  clientId : String
  clientSecret : String
  callbackUrl : String
  authorizeUrl : Option String := none
  accessTokenUrl : Option String := none
  userInfoUrl : Option String := none
  scopes : Option (List String) := none
deriving DecidableEq, Repr

/-- Default authorize URL of the driver. -/
def authorizeUrl : String := "https://www.tiktok.com/v2/auth/authorize/"

/-- Default token-exchange URL of the driver. -/
def accessTokenUrl : String := "https://open.tiktokapis.com/v2/oauth/token/"

/-- Default user-info URL of the driver. -/
def userInfoUrl : String := "https://open.tiktokapis.com/v2/user/info/"

/-- The param name for the authorization code. -/
def codeParamName : String := "code"

/-- The param name for the error. -/
def errorParamName : String := "error"

/-- Parameter name for sending the scopes to the oauth provider. -/
def scopeParamName : String := "scope"

/-- The profile fields requested from the user-info endpoint. -/
def userProfileFields : List String :=
  ["open_id", "union_id", "avatar_url", "avatar_url_100", "avatar_large_url", "display_name"]

/-- Redirect-request builder owned by the OAuth2 engine: a mutable set of
query parameters.  The hook receives it already populated by the engine,
so our theorems quantify over its initial contents. -/
structure RedirectRequest where
  params : List (String × String)
deriving DecidableEq, Repr

def RedirectRequest.param (r : RedirectRequest) (k v : String) : RedirectRequest :=
  ⟨setParam r.params k v⟩

def RedirectRequest.clearParam (r : RedirectRequest) (k : String) : RedirectRequest :=
  ⟨TikTokDriver.clearParam r.params k⟩

def RedirectRequest.getParam (r : RedirectRequest) (k : String) : Option String :=
  TikTokDriver.getParam r.params k

/-- `configureRedirectRequest` from the source.  The JavaScript expression
`this.config.scopes || ['user.info.basic']` falls back to the default only
when `scopes` is `undefined`: an empty array is truthy and is kept, which
`Option.getD` mirrors.  The source joins the scopes with `','`. -/
def configureRedirectRequest (cfg : TikTokConfig) (request : RedirectRequest) :
    RedirectRequest :=
  let scopes := cfg.scopes.getD ["user.info.basic"]
  let r1 := request.param scopeParamName (String.intercalate (",") scopes)
  let r2 := r1.param ("client_key") cfg.clientId
  let r3 := r2.param ("response_type") ("code")
  r3.clearParam ("client_id")

/-- Model of the inbound HTTP request of the context: the engine's
`ctx.request.input(name)` returns the named query/body input, or
`undefined` when absent. -/
structure HttpRequestCtx where
  inputs : List (String × String)
deriving DecidableEq, Repr

def HttpRequestCtx.input (ctx : HttpRequestCtx) (k : String) : Option String :=
  getParam ctx.inputs k

/-- Token-exchange request builder (`ApiRequest`): headers plus form
fields.  A field value is an `Option` because the source can pass the
possibly-`undefined` result of `ctx.request.input` as a field value. -/
structure ApiRequest where
  headers : List (String × String)
  fields : List (String × Option String)
deriving DecidableEq, Repr

def ApiRequest.header (r : ApiRequest) (k v : String) : ApiRequest :=
  ⟨setParam r.headers k v, r.fields⟩

def ApiRequest.field (r : ApiRequest) (k : String) (v : Option String) : ApiRequest :=
  ⟨r.headers, setParam r.fields k v⟩

def emptyApiRequest : ApiRequest := ⟨[], []⟩

/-- `configureAccessTokenRequest` from the source: one header and five
form fields, the last being the authorization code read from the current
inbound request. -/
def configureAccessTokenRequest (cfg : TikTokConfig) (ctx : HttpRequestCtx)
    (request : ApiRequest) : ApiRequest :=
  ((((((request.header ("Content-Type") ("application/x-www-form-urlencoded")).field
    ("grant_type") (some ("authorization_code"))).field
    ("client_key") (some cfg.clientId)).field
    ("client_secret") (some cfg.clientSecret)).field
    ("redirect_uri") (some cfg.callbackUrl)).field
    ("code") (ctx.input codeParamName))

/-- `accessDenied` from the source, applied to the engine-extracted error
parameter (`this.getError()`, an input that may be absent).  The guard
`if (!error) return false` treats both an absent and an empty error as
falsy; otherwise the result is `error === 'invalid_request'`. -/
def accessDenied (error : Option String) : Bool :=
  match error with
  | none => false
  | some e => if e = "" then false else e = "invalid_request"

/-- The nested `user` object of the provider's user-info payload, with the
three fields the driver reads. -/
structure TikTokUserObj where
  union_id : String
  display_name : String
  avatar_large_url : String
deriving DecidableEq, Repr

/-- The `data` wrapper of the user-info payload; the nested `user` object
may be missing (`undefined`). -/
structure UserInfoData where
  user : Option TikTokUserObj
deriving DecidableEq, Repr

/-- The parsed user-info response; the `data` wrapper itself may be
missing. -/
structure UserInfoResponse where
  data : Option UserInfoData
deriving DecidableEq, Repr

/-- The JavaScript optional chain `response.data?.user`: `undefined` when
either the `data` wrapper or the nested `user` object is missing. -/
def optChainUser (response : UserInfoResponse) : Option TikTokUserObj :=
  match response.data with
  | none => none
  | some d => d.user

/-- An untyped runtime failure, as a JavaScript `TypeError` thrown by a
property access on `undefined`; distinguished from a typed domain error. -/
inductive JsError where
  | typeError (msg : String)
  | domainError (msg : String)
deriving DecidableEq, Repr

/-- The failure thrown by `user.union_id` when `user` is `undefined`. -/
def accessOnUndefined : JsError :=
  JsError.typeError ("Cannot read properties of undefined")

/-- The record built by `getUserInfo` before the token is merged in. -/
structure UserInfoRecord where
  id : String
  nickName : String
  name : String
  avatarUrl : String
  email : String
  emailVerificationState : String
  original : UserInfoResponse
deriving DecidableEq, Repr

/-- `getUserInfo` from the source, applied to the parsed response of the
profile request.  The source extracts `response.data?.user` without
validation and then reads its properties, so a missing user object throws
an untyped access-on-undefined failure. -/
def getUserInfo (response : UserInfoResponse) : Except JsError UserInfoRecord :=
  match optChainUser response with
  | none => Except.error accessOnUndefined
  | some u =>
    Except.ok
      { id := u.union_id
        nickName := u.display_name
        name := u.display_name
        avatarUrl := u.avatar_large_url
        email := ""
        emailVerificationState := "unsupported"
        original := response }

/-- The normalized user record returned to the caller: the profile record
with the access token merged in (`{ ...user, token }`). -/
structure AllyUser where
  id : String
  nickName : String
  name : String
  avatarUrl : String
  email : String
  emailVerificationState : String
  original : UserInfoResponse
  token : TikTokAccessToken
deriving DecidableEq, Repr

def mergeToken (u : UserInfoRecord) (t : TikTokAccessToken) : AllyUser :=
  { id := u.id
    nickName := u.nickName
    name := u.name
    avatarUrl := u.avatarUrl
    email := u.email
    emailVerificationState := u.emailVerificationState
    original := u.original
    token := t }

/-- `user` from the source.  The engine's code-exchange step
(`this.accessToken(callback)`) is external to this repository; its result
is the `exchangedToken` argument.  A failure of `getUserInfo` propagates
unchanged. -/
def user (exchangedToken : TikTokAccessToken) (response : UserInfoResponse) :
    Except JsError AllyUser :=
  (getUserInfo response).map (fun u => mergeToken u exchangedToken)

/-- `userFromToken` from the source: no code exchange is consulted, the
caller-held token string is wrapped as `{ token, type: 'bearer' }` and
merged into the profile record. -/
def userFromToken (accessToken : String) (response : UserInfoResponse) :
    Except JsError AllyUser :=
  (getUserInfo response).map
    (fun u => mergeToken u { token := accessToken, type := "bearer" })

/-- The JavaScript `a || b` on an optional string: `undefined` and the
empty string are falsy and select the fallback. -/
def jsOrElse (v : Option String) (fallback : String) : String :=
  match v with
  | none => fallback
  | some s => if s = "" then fallback else s

/-- Model of the HTTP client request built by `getAuthenticatedRequest`. -/
structure HttpClientRequest where
  url : String
  headers : List (String × String)
  params : List (String × String)
  parseKind : String
deriving DecidableEq, Repr

/-- `getAuthenticatedRequest` from the source: bearer-authorization
header, `fields` query parameter, JSON parsing. -/
def getAuthenticatedRequest (url : String) (token : String) : HttpClientRequest :=
  { url := url
    headers := [("Authorization", "Bearer " ++ token)]
    params := [("fields", String.intercalate (",") userProfileFields)]
    parseKind := "json" }

/-- The request `getUserInfo` sends: its URL is
`this.config.userInfoUrl || this.userInfoUrl` (JavaScript `||`). -/
def userInfoRequest (cfg : TikTokConfig) (token : String) : HttpClientRequest :=
  getAuthenticatedRequest (jsOrElse cfg.userInfoUrl userInfoUrl) token

/-- C1 counterexample: with the non-empty scope list
`["user.info.basic", "video.list"]` the redirect request's `scope`
parameter is the comma-joined string, not the space-joined one the claim
states. -/
theorem redirectScopeSpaceJoin_cex :
    (configureRedirectRequest
        { clientId := "ck1", clientSecret := "cs1", callbackUrl := "cb1",
          scopes := some ["user.info.basic", "video.list"] }
        ⟨[]⟩).getParam ("scope") = some ("user.info.basic,video.list") ∧
    (configureRedirectRequest
        { clientId := "ck1", clientSecret := "cs1", callbackUrl := "cb1",
          scopes := some ["user.info.basic", "video.list"] }
        ⟨[]⟩).getParam ("scope") ≠ some ("user.info.basic video.list") := by
  constructor
  · rfl
  · decide

/-- C1 (amended): for every configuration with a non-empty scope list `S`
and every initial redirect request, customizing the redirect request sets
the `scope` query parameter to the elements of `S` joined by single
commas. -/
theorem redirectScopeCommaJoined (cfg : TikTokConfig) (r : RedirectRequest)
    (S : List String) (hS : cfg.scopes = some S) (_hne : S ≠ []) :
    (configureRedirectRequest cfg r).getParam ("scope") =
      some (String.intercalate (",") S) := by
  simp only [configureRedirectRequest, RedirectRequest.param,
    RedirectRequest.clearParam, RedirectRequest.getParam, scopeParamName,
    hS, Option.getD_some]
  rw [getParam_clearParam_ne (by decide : ("scope" : String) ≠ "client_id"),
    getParam_setParam_ne (by decide : ("scope" : String) ≠ "response_type"),
    getParam_setParam_ne (by decide : ("scope" : String) ≠ "client_key"),
    getParam_setParam_self]

/-- C1 witness. -/
theorem redirectScopeCommaJoined_w :
    (configureRedirectRequest
        { clientId := "ckA", clientSecret := "csA", callbackUrl := "cbA",
          scopes := some ["video.list", "video.upload"] }
        ⟨[]⟩).getParam ("scope") =
      some (String.intercalate (",") ["video.list", "video.upload"]) :=
  redirectScopeCommaJoined _ _ _ rfl (by decide)

/-- C2: for every well-formed user-info response whose nested user object
has union id `u`, display name `d` and large avatar URL `a`, and every
token `t` obtained from the code exchange, `user` returns the normalized
record with id `u`, name and nickname `d`, avatar URL `a`, empty email,
`unsupported` email-verification state, and the exchanged token `t`
embedded. -/
theorem userNormalizesWellFormed (u d a : String) (t : TikTokAccessToken) :
    user t ⟨some ⟨some ⟨u, d, a⟩⟩⟩ =
      Except.ok
        { id := u, nickName := d, name := d, avatarUrl := a, email := "",
          emailVerificationState := "unsupported",
          original := ⟨some ⟨some ⟨u, d, a⟩⟩⟩, token := t } := rfl

/-- C3: customizing the token-exchange request produces exactly the five
form fields `grant_type=authorization_code`, `client_key` (the configured
client id), `client_secret`, `redirect_uri` (the configured callback URL)
and `code` (the authorization code read from the current inbound
request), and sets the `Content-Type` header to form-url-encoded. -/
theorem accessTokenRequestFields (cfg : TikTokConfig) (ctx : HttpRequestCtx) :
    (configureAccessTokenRequest cfg ctx emptyApiRequest).fields =
      [(("grant_type" : String), some ("authorization_code")),
       ("client_key", some cfg.clientId),
       ("client_secret", some cfg.clientSecret),
       ("redirect_uri", some cfg.callbackUrl),
       ("code", ctx.input codeParamName)] ∧
    getParam (configureAccessTokenRequest cfg ctx emptyApiRequest).headers
        ("Content-Type") = some ("application/x-www-form-urlencoded") :=
  ⟨rfl, rfl⟩

/-- C4: the access-denied predicate holds exactly when the
engine-extracted error parameter is present and equal to
`invalid_request`; it is false when the parameter is absent, empty, or
any other value. -/
theorem accessDeniedIffInvalidRequest (error : Option String) :
    accessDenied error = true ↔ error = some ("invalid_request") := by
  cases error with
  | none => simp [accessDenied]
  | some e =>
    by_cases h : e = ""
    · subst h; decide
    · simp [accessDenied, h]

/-- C5: whenever `userFromToken` succeeds for a token string `t`, the
embedded token of the returned record is exactly
`{ token := t, type := "bearer" }`; no code exchange is consulted. -/
theorem userFromTokenBearer (t : String) (resp : UserInfoResponse)
    (r : AllyUser) (h : userFromToken t resp = Except.ok r) :
    r.token = { token := t, type := "bearer" } := by
  unfold userFromToken at h
  cases hg : getUserInfo resp with
  | error e =>
    rw [hg] at h
    exact absurd h (by simp [Except.map])
  | ok u =>
    rw [hg] at h
    simp only [Except.map] at h
    injection h with h
    rw [← h]
    rfl

/-- C5 witness. -/
theorem userFromTokenBearer_w :
    ({ id := "u9", nickName := "N9", name := "N9", avatarUrl := "a9",
       email := "", emailVerificationState := "unsupported",
       original := ⟨some ⟨some ⟨"u9", "N9", "a9"⟩⟩⟩,
       token := { token := "tok2", type := "bearer" } } : AllyUser).token =
      { token := "tok2", type := "bearer" } :=
  userFromTokenBearer ("tok2") ⟨some ⟨some ⟨"u9", "N9", "a9"⟩⟩⟩ _ rfl

/-- C6: for every configuration and every initial redirect request,
customizing the redirect request sets `client_key` to the configured
client id, sets `response_type` to `code`, and removes the standard
`client_id` parameter. -/
theorem redirectClientKeyNoClientId (cfg : TikTokConfig) (r : RedirectRequest) :
    (configureRedirectRequest cfg r).getParam ("client_key") = some cfg.clientId ∧
    (configureRedirectRequest cfg r).getParam ("response_type") = some ("code") ∧
    (configureRedirectRequest cfg r).getParam ("client_id") = none := by
  refine ⟨?_, ?_, ?_⟩ <;>
    simp only [configureRedirectRequest, RedirectRequest.param,
      RedirectRequest.clearParam, RedirectRequest.getParam, scopeParamName]
  · rw [getParam_clearParam_ne (by decide : ("client_key" : String) ≠ "client_id"),
      getParam_setParam_ne (by decide : ("client_key" : String) ≠ "response_type"),
      getParam_setParam_self]
  · rw [getParam_clearParam_ne (by decide : ("response_type" : String) ≠ "client_id"),
      getParam_setParam_self]
  · rw [getParam_clearParam_self]

/-- C7: for every configuration whose scope list is unspecified and every
initial redirect request, the `scope` parameter is set to the single
default scope `user.info.basic`. -/
theorem redirectScopeDefaultWhenUnspecified (cfg : TikTokConfig)
    (r : RedirectRequest) (h : cfg.scopes = none) :
    (configureRedirectRequest cfg r).getParam ("scope") =
      some ("user.info.basic") := by
  simp only [configureRedirectRequest, RedirectRequest.param,
    RedirectRequest.clearParam, RedirectRequest.getParam, scopeParamName,
    h, Option.getD_none]
  rw [getParam_clearParam_ne (by decide : ("scope" : String) ≠ "client_id"),
    getParam_setParam_ne (by decide : ("scope" : String) ≠ "response_type"),
    getParam_setParam_ne (by decide : ("scope" : String) ≠ "client_key"),
    getParam_setParam_self]
  rfl

/-- C7 witness. -/
theorem redirectScopeDefaultWhenUnspecified_w :
    (configureRedirectRequest
        { clientId := "ckB", clientSecret := "csB", callbackUrl := "cbB" }
        ⟨[]⟩).getParam ("scope") = some ("user.info.basic") :=
  redirectScopeDefaultWhenUnspecified _ _ rfl

/-- C8 counterexample: a configuration that supplies the override
`userInfoUrl = ""` does not make the profile fetch target `""`: the
JavaScript `||` treats the empty string as falsy and the fetch targets
the built-in default URL. -/
theorem userInfoUrlEmptyOverride_cex :
    (userInfoRequest
        { clientId := "ckE", clientSecret := "csE", callbackUrl := "cbE",
          userInfoUrl := some ("") } ("tokE")).url ≠ "" ∧
    (userInfoRequest
        { clientId := "ckE", clientSecret := "csE", callbackUrl := "cbE",
          userInfoUrl := some ("") } ("tokE")).url = userInfoUrl := by
  constructor
  · decide
  · rfl

/-- C8 (amended): for every configuration that supplies a non-empty
`userInfoUrl` override the profile fetch targets the override URL, and
for every configuration without the override it targets the built-in
default user-info URL (an empty-string override also falls back to the
default). -/
theorem userInfoUrlResolution (cfg : TikTokConfig) (t : String) :
    (∀ u : String, cfg.userInfoUrl = some u → u ≠ "" →
      (userInfoRequest cfg t).url = u) ∧
    (cfg.userInfoUrl = none → (userInfoRequest cfg t).url = userInfoUrl) ∧
    (cfg.userInfoUrl = some ("") → (userInfoRequest cfg t).url = userInfoUrl) := by
  refine ⟨?_, ?_, ?_⟩
  · intro u hu hne
    simp [userInfoRequest, getAuthenticatedRequest, jsOrElse, hu, hne]
  · intro hn
    simp [userInfoRequest, getAuthenticatedRequest, jsOrElse, hn]
  · intro he
    simp [userInfoRequest, getAuthenticatedRequest, jsOrElse, he]

/-- C8 witness. -/
theorem userInfoUrlResolution_w :
    (userInfoRequest
        { clientId := "ckF", clientSecret := "csF", callbackUrl := "cbF",
          userInfoUrl := some ("http://example.test/me") } ("tokF")).url =
      "http://example.test/me" ∧
    (userInfoRequest
        { clientId := "ckG", clientSecret := "csG", callbackUrl := "cbG" }
        ("tokG")).url = userInfoUrl ∧
    (userInfoRequest
        { clientId := "ckH", clientSecret := "csH", callbackUrl := "cbH",
          userInfoUrl := some ("") } ("tokH")).url = userInfoUrl :=
  ⟨(userInfoUrlResolution _ _).1 ("http://example.test/me") rfl (by decide),
   (userInfoUrlResolution _ _).2.1 rfl,
   (userInfoUrlResolution _ _).2.2 rfl⟩

/-- C9: for every user-info response lacking the nested user object
(`response.data?.user` is `undefined`), the profile fetch fails with the
untyped access-on-undefined failure, not a record or a typed domain
error, and both `user` and `userFromToken` propagate that same failure
unchanged. -/
theorem getUserInfoMissingUserFails (resp : UserInfoResponse)
    (t : TikTokAccessToken) (s : String)
    (h : optChainUser resp = none) :
    getUserInfo resp = Except.error accessOnUndefined ∧
    user t resp = Except.error accessOnUndefined ∧
    userFromToken s resp = Except.error accessOnUndefined := by
  have hg : getUserInfo resp = Except.error accessOnUndefined := by
    unfold getUserInfo
    rw [h]
  refine ⟨hg, ?_, ?_⟩
  · unfold user
    rw [hg]
    rfl
  · unfold userFromToken
    rw [hg]
    rfl

/-- C9 witness. -/
theorem getUserInfoMissingUserFails_w :
    getUserInfo ⟨none⟩ = Except.error accessOnUndefined ∧
    user { token := "t9", type := "bearer" } ⟨none⟩ =
      Except.error accessOnUndefined ∧
    userFromToken ("t8") ⟨none⟩ = Except.error accessOnUndefined :=
  getUserInfoMissingUserFails ⟨none⟩ { token := "t9", type := "bearer" } ("t8") rfl

/-- C10: for every configuration whose scope list is present but empty
and every initial redirect request, the `scope` parameter is set to the
empty string, not to the default scope: the default applies only when the
scope list is absent. -/
theorem redirectScopeEmptyList (cfg : TikTokConfig) (r : RedirectRequest)
    (h : cfg.scopes = some []) :
    (configureRedirectRequest cfg r).getParam ("scope") = some ("") := by
  simp only [configureRedirectRequest, RedirectRequest.param,
    RedirectRequest.clearParam, RedirectRequest.getParam, scopeParamName,
    h, Option.getD_some]
  rw [getParam_clearParam_ne (by decide : ("scope" : String) ≠ "client_id"),
    getParam_setParam_ne (by decide : ("scope" : String) ≠ "response_type"),
    getParam_setParam_ne (by decide : ("scope" : String) ≠ "client_key"),
    getParam_setParam_self]
  rfl

/-- C10 witness. -/
theorem redirectScopeEmptyList_w :
    (configureRedirectRequest
        { clientId := "ckC", clientSecret := "csC", callbackUrl := "cbC",
          scopes := some [] } ⟨[]⟩).getParam ("scope") = some ("") :=
  redirectScopeEmptyList _ _ rfl

end TikTokDriver
